import Mathlib

/-!
Verification development for the DomFuzz domain status resolution engine
(src/src/main.rs). The network-facing Rust functions are shallowly embedded
as pure Lean functions over an explicit environment describing the responses
the network would give; classification logic is transliterated from the
source. Rust `String` is modelled by Lean `String`, `str::contains` by
substring search on character lists, `serde_json::Value` by an inductive
`Json` type.
-/

namespace DomFuzz

/-- Substring search on character lists: does `pat` occur contiguously? -/
def hasSubstr (pat : List Char) : List Char → Bool
  | [] => pat.isEmpty
  | c :: rest => pat.isPrefixOf (c :: rest) || hasSubstr pat rest

/-- Rust `haystack.contains(pat)` — substring containment. -/
def rcontains (haystack pat : String) : Bool :=
  hasSubstr pat.toList haystack.toList

/-- Rust `str.to_lowercase()` (modelled char-wise, adequate for the ASCII
keywords the classifiers search for). -/
def rlower (s : String) : String := String.mk (s.toList.map Char.toLower)

/-- Rust `s.split(sep)` on a character list: Rust yields `[""]` on the empty
string, and empty fragments around separators. -/
def rsplit (sep : Char) : List Char → List (List Char)
  | [] => [[]]
  | c :: rest =>
    if c = sep then [] :: rsplit sep rest
    else
      match rsplit sep rest with
      | [] => [[c]]
      | g :: gs => (c :: g) :: gs

/-- `serde_json::Value`, restricted to the shapes the RDAP classifier reads. -/
inductive Json where
  | null : Json
  | bool (b : Bool) : Json
  | num (n : Int) : Json
  | str (s : String) : Json
  | arr (xs : List Json) : Json
  | obj (fields : List (String × Json)) : Json

/-- `Value::get(key)`: field lookup on objects, `None` otherwise. -/
def Json.get (j : Json) (key : String) : Option Json :=
  match j with
  | .obj fields => fields.lookup key
  | _ => none

/-- `Value::as_array()`. -/
def Json.asArr (j : Json) : Option (List Json) :=
  match j with
  | .arr xs => some xs
  | _ => none

/-- `Value::as_str()`. -/
def Json.asStr (j : Json) : Option String :=
  match j with
  | .str s => some s
  | _ => none

/-- `const RETRY_DELAY_MS: u64 = 500` (src/src/main.rs:29). -/
def RETRY_DELAY_MS : Nat := 500

/-! ## TLD extraction and registry tables -/

/-- `extract_tld` (src/src/main.rs:1302-1311): split on dots, error when there
are fewer than two parts, else the lowercased last part. The last two parts
are read off the reversed fragment list. -/
def extract_tld (domain : String) : Except String String :=
  match (rsplit '.' domain.toList).reverse with
  | tld :: _ :: _ => .ok (rlower (String.mk tld))
  | _ => .error "Invalid domain format"

/-- `get_rdap_endpoint` (src/src/main.rs:1260-1299): static TLD → RDAP
endpoint table; unmapped TLD is an error (tier failure). -/
def get_rdap_endpoint (tld : String) : Except String String :=
  match rlower tld with
  | "com" => .ok "https://rdap.verisign.com/com/v1/domain/"
  | "net" => .ok "https://rdap.verisign.com/net/v1/domain/"
  | "org" => .ok "https://rdap.publicinterestregistry.org/rdap/domain/"
  | "info" => .ok "https://rdap.identitydigital.services/rdap/domain/"
  | "biz" => .ok "https://rdap.nic.biz/domain/"
  | "app" => .ok "https://rdap.nic.google/domain/"
  | "dev" => .ok "https://rdap.nic.google/domain/"
  | "page" => .ok "https://rdap.nic.google/domain/"
  | "xyz" => .ok "https://rdap.nic.xyz/domain/"
  | "tech" => .ok "https://rdap.nic.tech/domain/"
  | "online" => .ok "https://rdap.nic.online/domain/"
  | "site" => .ok "https://rdap.nic.site/domain/"
  | "io" => .ok "https://rdap.identitydigital.services/rdap/domain/"
  | "ai" => .ok "https://rdap.nic.ai/domain/"
  | "co" => .ok "https://rdap.nic.co/domain/"
  | "me" => .ok "https://rdap.nic.me/domain/"
  | "us" => .ok "https://rdap.nic.us/domain/"
  | "uk" => .ok "https://rdap.nominet.uk/domain/"
  | "eu" => .ok "https://rdap.eu.org/domain/"
  | "de" => .ok "https://rdap.denic.de/domain/"
  | "ca" => .ok "https://rdap.cira.ca/domain/"
  | "au" => .ok "https://rdap.auda.org.au/domain/"
  | "fr" => .ok "https://rdap.nic.fr/domain/"
  | "jp" => .ok "https://rdap.jprs.jp/domain/"
  | "br" => .ok "https://rdap.registro.br/domain/"
  | "in" => .ok "https://rdap.registry.in/domain/"
  | "cn" => .ok "https://rdap.cnnic.cn/domain/"
  | "tv" => .ok "https://rdap.verisign.com/tv/v1/domain/"
  | "cc" => .ok "https://rdap.verisign.com/cc/v1/domain/"
  | tl => .error ("No RDAP endpoint known for TLD: " ++ tl)

/-- `extract_registrable_domain` (src/src/main.rs:1837-1850): keep only the
last two dot-separated parts; a dotless input is returned as-is. The last two
parts are read off the reversed fragment list. -/
def extract_registrable_domain (input : String) : String :=
  match (rsplit '.' input.toList).reverse with
  | tld :: domain :: _ => String.mk (domain ++ '.' :: tld)
  | _ => input

/-! ## RDAP tier (src/src/main.rs:1126-1257) -/

/-- Responses the network gives to the RDAP tier for one domain: the first
GET either fails at the HTTP layer (`error`, propagated by `?`) or yields a
status code together with `some json` when the body parses, `none` when it
does not; `retry` likewise describes the GET issued after a 429 (only its
status code is ever inspected). -/
structure RdapEnv where
  first : Except Unit (Nat × Option Json)
  retry : Except Unit Nat

/-- `extract_vcard_name`, inner loop over the vCard items
(src/src/main.rs:1240-1255): the first item that is an array of length ≥ 4
whose first element is the string "fn" decides the result (its fourth
element as a string, possibly `none`); other items are skipped. -/
def vcard_find_fn : List Json → Option String
  | [] => none
  | item :: rest =>
    match item.asArr with
    | some item_array =>
      if 4 ≤ item_array.length then
        match item_array.head? with
        | some first =>
          match first.asStr with
          | some fs =>
            if fs = "fn" then (item_array.get? 3).bind Json.asStr
            else vcard_find_fn rest
          | none => vcard_find_fn rest
        | none => vcard_find_fn rest
      else vcard_find_fn rest
    | none => vcard_find_fn rest

/-- `extract_vcard_name` (src/src/main.rs:1234-1257). -/
def extract_vcard_name (entity : Json) : Option String :=
  match ((entity.get "vcardArray").bind Json.asArr).bind
      (fun a => (a.get? 1).bind Json.asArr) with
  | some items => vcard_find_fn items
  | none => none

/-- `handle`/`name` fallback of `extract_registrar_name`
(src/src/main.rs:1226-1231). -/
def registrar_handle_or_name (entity : Json) : Option String :=
  (match entity.get "handle" with
   | some h => some h
   | none => entity.get "name").bind Json.asStr

/-- `extract_registrar_name` (src/src/main.rs:1209-1231): vCard `fn` first,
then `publicIds[0].identifier`, then `handle` or `name`. -/
def extract_registrar_name (entity : Json) : Option String :=
  match extract_vcard_name entity with
  | some name => some name
  | none =>
    match (entity.get "publicIds").bind Json.asArr with
    | some public_ids =>
      match (public_ids.head?.bind (fun id => id.get "identifier")).bind Json.asStr with
      | some i => some i
      | none => registrar_handle_or_name entity
    | none => registrar_handle_or_name entity

/-- Body of the `status[]` loop of `is_domain_parked_rdap`
(src/src/main.rs:1172-1182): does one status entry hold a
hold/redemption/pending-delete keyword? -/
def rdap_status_parked (status : Json) : Bool :=
  match status.asStr with
  | some status_str =>
    let status_lower := rlower status_str
    rcontains status_lower "client hold"
      || rcontains status_lower "redemption"
      || rcontains status_lower "pending delete"
  | none => false

/-- Body of the `entities[]` loop of `is_domain_parked_rdap`
(src/src/main.rs:1187-1202): does one entity carry the "registrar" role and
a parking-service name? -/
def rdap_entity_parked (entity : Json) : Bool :=
  match (entity.get "roles").bind Json.asArr with
  | some roles =>
    if roles.any (fun role => role.asStr == some "registrar") then
      match extract_registrar_name entity with
      | some name =>
        let name_lower := rlower name
        rcontains name_lower "sedo"
          || rcontains name_lower "parking"
          || rcontains name_lower "bodis"
          || rcontains name_lower "hugedomains"
      | none => false
    else false
  | none => false

/-- `is_domain_parked_rdap` (src/src/main.rs:1169-1206): the two
early-return `for` loops are the two `List.any` disjuncts. -/
def is_domain_parked_rdap (json : Json) : Bool :=
  (match (json.get "status").bind Json.asArr with
   | some statuses => statuses.any rdap_status_parked
   | none => false)
  ||
  (match (json.get "entities").bind Json.asArr with
   | some entities => entities.any rdap_entity_parked
   | none => false)

/-- `check_domain_rdap` (src/src/main.rs:1126-1166). -/
def check_domain_rdap (env : RdapEnv) (domain : String) : Except String String :=
  match extract_tld domain with
  | .error e => .error e
  | .ok tld =>
    match get_rdap_endpoint tld with
    | .error e => .error e
    | .ok _endpoint =>
      match env.first with
      | .error _ => .error "request error"
      | .ok (status, body) =>
        if status = 200 then
          match body with
          | some json =>
            if is_domain_parked_rdap json then .ok "parked" else .ok "registered"
          | none => .ok "registered"
        else if status = 404 then .ok "available"
        else if status = 429 then
          match env.retry with
          | .error _ => .error "request error"
          | .ok retry_status =>
            if retry_status = 200 then .ok "registered"
            else if retry_status = 404 then .ok "available"
            else .error "RDAP server error after retry"
        else .error "RDAP server returned status"

/-! ## WHOIS tier (src/src/main.rs:1377-1438) -/

/-- What the network gives the WHOIS tier for one domain: either some
connect/write/read failure or timeout (`error`, each propagated by `??` in
the source), or the full response text read until the peer closed. -/
structure WhoisEnv where
  response : Except Unit String

/-- `check_whois` (src/src/main.rs:1377-1438): lowercase the response, then
classify by substring search — availability markers first, then
registration markers (downgraded to parked on a parking keyword), else an
"unable to determine status" tier failure. -/
def check_whois (env : WhoisEnv) (_domain : String) : Except String String :=
  match env.response with
  | .error _ => .error "network error"
  | .ok raw =>
    let whois_data := rlower raw
    if rcontains whois_data "no match"
        || rcontains whois_data "not found"
        || rcontains whois_data "no entries found"
        || rcontains whois_data "domain status: available"
        || rcontains whois_data "domain not found"
        || rcontains whois_data "no data found" then
      .ok "available"
    else if rcontains whois_data "registrar:"
        || rcontains whois_data "registrant:"
        || rcontains whois_data "creation date:"
        || rcontains whois_data "created:" then
      if rcontains whois_data "parked"
          || rcontains whois_data "parking"
          || rcontains whois_data "domain for sale"
          || rcontains whois_data "sedo"
          || rcontains whois_data "bodis"
          || rcontains whois_data "sedoparking" then
        .ok "parked"
      else
        .ok "registered"
    else
      .error "unable to determine status"

/-! ## DNS + HTTP fallback (src/src/main.rs:1321-1375) -/

/-- Outcome of `timeout(DNS_TIMEOUT_SECS, resolver.lookup_ip(domain))`:
`ok n` is `Ok(Ok(lookup))` with `n` records, `resolveErr` is `Ok(Err(_))`,
`elapsed` is `Err(_)` (the timeout fired). -/
inductive DnsResult where
  | ok (records : Nat)
  | resolveErr
  | elapsed

/-- Outcome of one `timeout(HTTP_TIMEOUT_SECS, HTTP_CLIENT.get(url).send())`
probe: `noResp` when the send errored or timed out, otherwise the status
success flag together with `some body` when
`timeout(HTTP_CONTENT_TIMEOUT_SECS, resp.text())` succeeded, `none` when it
errored or timed out. -/
inductive ProbeResult where
  | noResp
  | resp (success : Bool) (body : Option String)

/-- The `for protocol in ["http", "https"]` loop of
`check_domain_status_legacy` (src/src/main.rs:1338-1370): first
status-success response decides — parked on a parking signature in the
lowercased body, otherwise registered; no success at all is still
registered. -/
def probe_protocols : List ProbeResult → String
  | [] => "registered"
  | probe :: rest =>
    match probe with
    | .noResp => probe_protocols rest
    | .resp success body =>
      if success then
        match body with
        | some content =>
          let content_lower := rlower content
          if rcontains content_lower "parked"
              || rcontains content_lower "domain for sale"
              || rcontains content_lower "this domain may be for sale"
              || (rcontains content_lower "godaddy" && rcontains content_lower "parked")
              || rcontains content_lower "sedo"
              || rcontains content_lower "parking"
              || rcontains content_lower "under construction"
              || rcontains content_lower "coming soon" then
            "parked"
          else
            "registered"
        | none => "registered"
      else probe_protocols rest

/-- What the network gives the legacy tier for one domain. -/
structure LegacyEnv where
  whois : WhoisEnv
  dns : DnsResult
  http : ProbeResult
  https : ProbeResult

/-- DNS + HTTP part of `check_domain_status_legacy`
(src/src/main.rs:1321-1374): no records or resolution error is available,
a DNS timeout is timeout, otherwise probe http then https. -/
def dns_http_check (env : LegacyEnv) (_domain : String) : String :=
  match env.dns with
  | .ok records =>
    if records = 0 then "available"
    else probe_protocols [env.http, env.https]
  | .resolveErr => "available"
  | .elapsed => "timeout"

/-- `check_domain_status_legacy` (src/src/main.rs:1314-1375): WHOIS first,
DNS + HTTP on WHOIS tier failure. -/
def check_domain_status_legacy (env : LegacyEnv) (domain : String) : String :=
  match check_whois env.whois domain with
  | .ok whois_result => whois_result
  | .error _ => dns_http_check env domain

/-! ## Status resolver cascade (src/src/main.rs:1112-1123) -/

/-- What the network gives the whole cascade for one domain. -/
structure Env where
  rdap : RdapEnv
  legacy : LegacyEnv

/-- `check_domain_status` (src/src/main.rs:1112-1123): reduce to the
registrable domain, try RDAP, fall back to the legacy path on tier
failure. -/
def check_domain_status (env : Env) (domain : String) : String :=
  let registrable_domain := extract_registrable_domain domain
  match check_domain_rdap env.rdap registrable_domain with
  | .ok status => status
  | .error _ => check_domain_status_legacy env.legacy registrable_domain

/-! ## Network-event instrumentation of the RDAP tier

The same control flow as `check_domain_rdap`, recording the GETs issued and
the backoff sleep (src/src/main.rs:1138, 1156-1157): one GET when the tier
reaches the network, plus — only on a first 429 — one sleep of
`RETRY_DELAY_MS` and exactly one further GET of the same URL. -/

inductive NetEvent where
  | rdap_get (url : String)
  | rdap_sleep (ms : Nat)
deriving DecidableEq

/-- Events emitted by one `check_domain_rdap` call. -/
def check_domain_rdap_events (env : RdapEnv) (domain : String) : List NetEvent :=
  match extract_tld domain with
  | .error _ => []
  | .ok tld =>
    match get_rdap_endpoint tld with
    | .error _ => []
    | .ok endpoint =>
      let rdap_url := endpoint ++ domain
      match env.first with
      | .error _ => [.rdap_get rdap_url]
      | .ok (status, _) =>
        if status = 429 then
          [.rdap_get rdap_url, .rdap_sleep RETRY_DELAY_MS, .rdap_get rdap_url]
        else [.rdap_get rdap_url]

/-! ## Tier-order instrumentation of the cascade

Which tiers run, in order, for one `check_domain_status` call — read off the
control flow of src/src/main.rs:1112-1123 and 1314-1321: WHOIS only after an
RDAP tier failure, DNS+HTTP only after a WHOIS tier failure. -/

inductive Tier where
  | rdap
  | whois
  | dnshttp
deriving DecidableEq

/-- Tiers executed by one `check_domain_status` call, in execution order. -/
def check_domain_status_tiers (env : Env) (domain : String) : List Tier :=
  let registrable_domain := extract_registrable_domain domain
  match check_domain_rdap env.rdap registrable_domain with
  | .ok _ => [.rdap]
  | .error _ =>
    match check_whois env.legacy.whois registrable_domain with
    | .ok _ => [.rdap, .whois]
    | .error _ => [.rdap, .whois, .dnshttp]

/-! ## Concurrency controller (src/src/main.rs:1062-1100)

`check_domains_concurrent` runs one task per domain; each task first
acquires a permit of `Semaphore::new(concurrency)` (line 1087), then runs
`check_domain_status` and yields `(domain, status)`; the permit is an RAII
guard released on every completion path, and `collect` gathers results in
completion order. This is modelled as a small-step transition system: a
`start` step consumes a permit and moves a pending domain into the running
set, a `finish` step removes a running domain, restores the permit and
appends its result. -/

structure SchedState where
  pending : List String
  running : List String
  finished : List (String × String)
  permits : Nat

/-- One scheduler transition. `envOf` gives each domain its network
environment. -/
inductive SchedStep (envOf : String → Env) : SchedState → SchedState → Prop where
  | start (d : String) (p₁ p₂ : List String) (s : SchedState)
      (hp : s.pending = p₁ ++ d :: p₂) (hperm : 0 < s.permits) :
      SchedStep envOf s ⟨p₁ ++ p₂, d :: s.running, s.finished, s.permits - 1⟩
  | finish (d : String) (r₁ r₂ : List String) (s : SchedState)
      (hr : s.running = r₁ ++ d :: r₂) :
      SchedStep envOf s
        ⟨s.pending, r₁ ++ r₂,
          s.finished ++ [(d, check_domain_status (envOf d) d)], s.permits + 1⟩

/-- Initial state of `check_domains_concurrent domains concurrency`: all
domains pending, nothing running, all permits free. -/
def SchedInit (domains : List String) (concurrency : Nat) : SchedState :=
  ⟨domains, [], [], concurrency⟩

/-- Reachability under scheduler steps. -/
def SchedReach (envOf : String → Env) : SchedState → SchedState → Prop :=
  Relation.ReflTransGen (SchedStep envOf)

/-- `let concurrency = 15` at the batch-mode call site of
`check_domains_concurrent` (src/src/main.rs:947). -/
def main_check_concurrency : Nat := 15

/-- `let concurrency = 15` at the streaming `process_batch` call site of
`check_domains_concurrent` (src/src/main.rs:1785). -/
def streaming_check_concurrency : Nat := 15

/-! ## Streaming combo pipeline (src/src/main.rs:1561-1824) -/

/-- The `should_show` filter of `process_batch` (src/src/main.rs:1790-1796). -/
def should_show (only_registered only_available : Bool) (status : String) : Bool :=
  if only_registered then status != "available"
  else if only_available then status == "available"
  else true

/-- `process_batch` (src/src/main.rs:1759-1824), returning
`(batch_output_count, new total_output_count)`. The batch is drained by the
caller; `statuses` abstracts `check_domains_concurrent` (the count is
independent of completion order, so results are folded in batch order). -/
def process_batch (statuses : String → String)
    (check_status only_registered only_available : Bool)
    (batch : List String) (total_output_count max_output_count : Nat) :
    Nat × Nat :=
  if batch.isEmpty || decide (max_output_count ≤ total_output_count) then
    (0, total_output_count)
  else
    let remaining_output_slots := max_output_count - total_output_count
    let batch_to_process := batch.take remaining_output_slots
    let batch_output_count :=
      if check_status then
        batch_to_process.foldl
          (fun acc domain =>
            if should_show only_registered only_available (statuses domain)
                && decide (acc < remaining_output_slots) then
              acc + 1
            else acc) 0
      else
        (batch_to_process.take remaining_output_slots).length
    (batch_output_count, total_output_count + batch_output_count)

/-- The generation `while` loop of `generate_combo_attacks_streaming`
(src/src/main.rs:1652-1742), in the default `max_variations = None`
configuration, abstracted over the stream of candidates that survive the
duplicate/validity/similarity guards (the generator itself is randomized).
Each candidate is pushed onto `current_batch`; a full batch is handed to
`process_batch` and, on a zero return count, the loop breaks
(src/src/main.rs:1734-1736). Returns the batches processed inside the loop
and the final `total_output_count`. -/
def generate_combo_streaming_loop (statuses : String → String)
    (check_status only_registered only_available : Bool)
    (batch_size output_count : Nat) :
    List String → List String → Nat → List (List String) × Nat
  | [], _current_batch, total_output_count => ([], total_output_count)
  | candidate :: rest, current_batch, total_output_count =>
    if total_output_count < output_count then
      let batch' := current_batch ++ [candidate]
      if batch_size ≤ batch'.length then
        let processed := process_batch statuses check_status only_registered
          only_available batch' total_output_count output_count
        if processed.1 = 0 then ([batch'], processed.2)
        else
          let next := generate_combo_streaming_loop statuses check_status
            only_registered only_available batch_size output_count rest [] processed.2
          (batch' :: next.1, next.2)
      else
        generate_combo_streaming_loop statuses check_status only_registered
          only_available batch_size output_count rest batch' total_output_count
    else ([], total_output_count)

/-! ## Spec-side predicates (stated from the specification text, for
refinement comparisons against the transliterated code) -/

/-- Does `text` contain any keyword of the list? -/
def hasAnyKeyword (text : String) (keywords : List String) : Bool :=
  keywords.any (fun k => rcontains text k)

/-- Spec 4.3: WHOIS availability markers. -/
def whois_available_markers : List String :=
  ["no match", "not found", "no entries found", "domain status: available",
   "domain not found", "no data found"]

/-- Spec 4.3: WHOIS registration markers. -/
def whois_registered_markers : List String :=
  ["registrar:", "registrant:", "creation date:", "created:"]

/-- Spec 4.3: WHOIS parking keywords. -/
def whois_parking_markers : List String :=
  ["parked", "parking", "domain for sale", "sedo", "bodis", "sedoparking"]

/-- Spec 4.2: hold/redemption/pending-delete keyword in one RDAP status
string. -/
def status_hold_keyword (s : String) : Bool :=
  hasAnyKeyword (rlower s) ["client hold", "redemption", "pending delete"]

/-- Spec 4.2: parking-service keyword in a registrar name. -/
def parking_registrar_keyword (s : String) : Bool :=
  hasAnyKeyword (rlower s) ["sedo", "parking", "bodis", "hugedomains"]

/-- Spec 4.2, stated declaratively: the RDAP body marks the domain parked
when its `status[]` array holds a hold/redemption/pending-delete keyword, or
some entity with role "registrar" has a resolved name holding a
parking-service keyword. -/
def RdapParkedSpec (j : Json) : Prop :=
  (∃ statuses, (j.get "status").bind Json.asArr = some statuses ∧
    ∃ v ∈ statuses, ∃ s, v.asStr = some s ∧ status_hold_keyword s = true) ∨
  (∃ entities, (j.get "entities").bind Json.asArr = some entities ∧
    ∃ e ∈ entities,
      (∃ roles, (e.get "roles").bind Json.asArr = some roles ∧
        ∃ r ∈ roles, r.asStr = some "registrar") ∧
      ∃ n, extract_registrar_name e = some n ∧ parking_registrar_keyword n = true)

/-- Spec 4.4: placeholder/parking signature in a fetched page body (already
lowercased). -/
def http_parking_signature (content_lower : String) : Bool :=
  hasAnyKeyword content_lower
      ["parked", "domain for sale", "this domain may be for sale"]
    || (rcontains content_lower "godaddy" && rcontains content_lower "parked")
    || hasAnyKeyword content_lower
      ["sedo", "parking", "under construction", "coming soon"]

/-! ## Concrete fixture environments (for evaluating the theorems at
specific inputs) -/

/-- Fixture: the WHOIS connection fails. -/
def whois_fail : WhoisEnv := ⟨.error ()⟩

/-- Fixture: every tier below RDAP finds nothing. -/
def legacy_quiet : LegacyEnv := ⟨whois_fail, .resolveErr, .noResp, .noResp⟩

/-- Fixture: RDAP answers 404 on the first request. -/
def env_rdap404 : Env := ⟨⟨.ok (404, none), .ok 0⟩, legacy_quiet⟩

/-- Fixture: the RDAP request fails, WHOIS answers a no-match text. -/
def env_whois_available : Env :=
  ⟨⟨.error (), .ok 0⟩, ⟨⟨.ok "No match for domain"⟩, .resolveErr, .noResp, .noResp⟩⟩

/-- Fixture: RDAP and WHOIS both fail, DNS resolves to zero records. -/
def env_all_fail : Env := ⟨⟨.error (), .ok 0⟩, ⟨whois_fail, .ok 0, .noResp, .noResp⟩⟩

/-- Fixture: RDAP answers 429, then 200 on the retry. -/
def rdap_env_429_200 : RdapEnv := ⟨.ok (429, none), .ok 200⟩

/-- Fixture RDAP body: a registrar entity named "Sedo Domain Parking" via
vCard `fn`. -/
def json_registrar_sedo : Json :=
  .obj [("entities", .arr [.obj
    [("roles", .arr [.str "registrar"]),
     ("vcardArray", .arr [.str "vcard",
       .arr [.arr [.str "fn", .obj [], .str "text", .str "Sedo Domain Parking"]]])]])]

/-- Fixture RDAP body: `status: ["active"]`, no entities. -/
def json_status_active : Json := .obj [("status", .arr [.str "active"])]

/-- Fixture: RDAP answers 200 with the Sedo-registrar body. -/
def rdap_env_200_sedo : RdapEnv := ⟨.ok (200, some json_registrar_sedo), .ok 0⟩

/-- Fixture: RDAP answers 200 with the active-status body. -/
def rdap_env_200_active : RdapEnv := ⟨.ok (200, some json_status_active), .ok 0⟩

/-- Fixture: RDAP answers an unexpected 500. -/
def rdap_env_500 : RdapEnv := ⟨.ok (500, none), .ok 0⟩

/-! ## Helper lemmas: value ranges of each tier -/

lemma check_domain_rdap_ok_status4 (env : RdapEnv) (d s : String)
    (h : check_domain_rdap env d = .ok s) :
    s = "available" ∨ s = "registered" ∨ s = "parked" ∨ s = "timeout" := by
  unfold check_domain_rdap at h
  repeat' split at h
  all_goals simp_all

lemma check_whois_ok_status4 (env : WhoisEnv) (d s : String)
    (h : check_whois env d = .ok s) :
    s = "available" ∨ s = "registered" ∨ s = "parked" ∨ s = "timeout" := by
  unfold check_whois at h
  split at h
  · simp at h
  · dsimp only at h
    split_ifs at h <;> simp_all

lemma probe_protocols_status4 (l : List ProbeResult) :
    probe_protocols l = "available" ∨ probe_protocols l = "registered" ∨
    probe_protocols l = "parked" ∨ probe_protocols l = "timeout" := by
  induction l with
  | nil => right; left; rfl
  | cons p rest ih =>
    cases p with
    | noResp => simpa [probe_protocols] using ih
    | resp success body =>
      cases success with
      | false => simpa [probe_protocols] using ih
      | true =>
        cases body with
        | none => simp [probe_protocols]
        | some content =>
          simp only [probe_protocols]
          split_ifs with h1 h2 <;> tauto

lemma dns_http_check_status4 (env : LegacyEnv) (d : String) :
    dns_http_check env d = "available" ∨ dns_http_check env d = "registered" ∨
    dns_http_check env d = "parked" ∨ dns_http_check env d = "timeout" := by
  unfold dns_http_check
  cases env.dns with
  | ok records =>
    by_cases h : records = 0
    · simp [h]
    · simpa [h] using probe_protocols_status4 [env.http, env.https]
  | resolveErr => simp
  | elapsed => simp

lemma check_domain_status_legacy_status4 (env : LegacyEnv) (d : String) :
    check_domain_status_legacy env d = "available" ∨
    check_domain_status_legacy env d = "registered" ∨
    check_domain_status_legacy env d = "parked" ∨
    check_domain_status_legacy env d = "timeout" := by
  unfold check_domain_status_legacy
  cases hw : check_whois env.whois d with
  | ok s => simpa using check_whois_ok_status4 env.whois d s hw
  | error e => simpa using dns_http_check_status4 env d

/-- Claim C1: for every domain string and every behaviour of the network,
`check_domain_status` is total (it is a plain function into `String`, so it
terminates and never propagates an error) and returns exactly one of the
four status strings available, registered, parked, timeout. -/
theorem claim_C1_resolver_total (env : Env) (domain : String) :
    check_domain_status env domain = "available" ∨
    check_domain_status env domain = "registered" ∨
    check_domain_status env domain = "parked" ∨
    check_domain_status env domain = "timeout" := by
  unfold check_domain_status
  cases hr : check_domain_rdap env.rdap (extract_registrable_domain domain) with
  | ok s =>
    simpa [hr] using check_domain_rdap_ok_status4 env.rdap _ s hr
  | error e =>
    simpa [hr] using
      check_domain_status_legacy_status4 env.legacy (extract_registrable_domain domain)

/-- Claim C2: the cascade is strictly sequential — the resolver returns the
RDAP outcome whenever RDAP succeeds (and runs no other tier), consults WHOIS
only after an RDAP tier failure and returns its outcome when it succeeds
(running no DNS+HTTP), and runs the DNS+HTTP fallback exactly when both
RDAP and WHOIS have failed. -/
theorem claim_C2_tier_cascade (env : Env) (domain : String) :
    (∀ s, check_domain_rdap env.rdap (extract_registrable_domain domain) = .ok s →
      check_domain_status env domain = s ∧
      check_domain_status_tiers env domain = [Tier.rdap]) ∧
    (∀ e s, check_domain_rdap env.rdap (extract_registrable_domain domain) = .error e →
      check_whois env.legacy.whois (extract_registrable_domain domain) = .ok s →
      check_domain_status env domain = s ∧
      check_domain_status_tiers env domain = [Tier.rdap, Tier.whois]) ∧
    (∀ e e', check_domain_rdap env.rdap (extract_registrable_domain domain) = .error e →
      check_whois env.legacy.whois (extract_registrable_domain domain) = .error e' →
      check_domain_status env domain
          = dns_http_check env.legacy (extract_registrable_domain domain) ∧
      check_domain_status_tiers env domain = [Tier.rdap, Tier.whois, Tier.dnshttp]) := by
  refine ⟨fun s h => ?_, fun e s h hw => ?_, fun e e' h hw => ?_⟩
  · constructor <;> simp [check_domain_status, check_domain_status_tiers, h]
  · constructor <;>
      simp [check_domain_status, check_domain_status_tiers,
        check_domain_status_legacy, h, hw]
  · constructor <;>
      simp [check_domain_status, check_domain_status_tiers,
        check_domain_status_legacy, h, hw]

/-- Concrete evaluation of claim C2: with an RDAP 404 the cascade stops at
RDAP with "available"; with RDAP failed and a WHOIS no-match it stops at
WHOIS with "available"; with both failed it runs DNS+HTTP. -/
theorem claim_C2_tier_cascade_witness :
    (check_domain_status env_rdap404 "example.com" = "available" ∧
      check_domain_status_tiers env_rdap404 "example.com" = [Tier.rdap]) ∧
    (check_domain_status env_whois_available "example.com" = "available" ∧
      check_domain_status_tiers env_whois_available "example.com"
        = [Tier.rdap, Tier.whois]) ∧
    (check_domain_status env_all_fail "example.com"
        = dns_http_check env_all_fail.legacy "example.com" ∧
      check_domain_status_tiers env_all_fail "example.com"
        = [Tier.rdap, Tier.whois, Tier.dnshttp]) :=
  ⟨(claim_C2_tier_cascade env_rdap404 "example.com").1 "available" (by rfl),
   ⟨(claim_C2_tier_cascade env_whois_available "example.com").2.1
      "request error" "available" (by rfl) (by rfl),
    (claim_C2_tier_cascade env_all_fail "example.com").2.2
      "request error" "network error" (by rfl) (by rfl)⟩⟩

/-! ## Claim C3: RDAP classification -/

lemma status_hold_keyword_chain (s : String) :
    status_hold_keyword s
      = (rcontains (rlower s) "client hold" || rcontains (rlower s) "redemption"
          || rcontains (rlower s) "pending delete") := by
  simp [status_hold_keyword, hasAnyKeyword, Bool.or_assoc]

lemma parking_registrar_keyword_chain (s : String) :
    parking_registrar_keyword s
      = (rcontains (rlower s) "sedo" || rcontains (rlower s) "parking"
          || rcontains (rlower s) "bodis" || rcontains (rlower s) "hugedomains") := by
  simp [parking_registrar_keyword, hasAnyKeyword, Bool.or_assoc]

lemma rdap_status_parked_iff (v : Json) :
    rdap_status_parked v = true ↔
      ∃ s, v.asStr = some s ∧ status_hold_keyword s = true := by
  unfold rdap_status_parked
  cases h : v.asStr with
  | none => simp
  | some str => simp [status_hold_keyword_chain]

lemma rdap_entity_parked_iff (e : Json) :
    rdap_entity_parked e = true ↔
      ((∃ roles, (e.get "roles").bind Json.asArr = some roles ∧
          ∃ r ∈ roles, r.asStr = some "registrar") ∧
        ∃ n, extract_registrar_name e = some n ∧
          parking_registrar_keyword n = true) := by
  unfold rdap_entity_parked
  cases hr : (e.get "roles").bind Json.asArr with
  | none => simp
  | some roles =>
    by_cases hreg : (roles.any fun role => role.asStr == some "registrar") = true
    · have hex : ∃ r ∈ roles, r.asStr = some "registrar" := by
        simpa [List.any_eq_true] using hreg
      cases hn : extract_registrar_name e with
      | none => simp [hreg, hn, hex]
      | some name => simp [hreg, hn, hex, parking_registrar_keyword_chain]
    · have hnex : ¬ ∃ r ∈ roles, r.asStr = some "registrar" := by
        simpa [List.any_eq_true] using hreg
      simp [Bool.not_eq_true] at hreg
      simp [hreg, hnex]

lemma is_domain_parked_rdap_iff (j : Json) :
    is_domain_parked_rdap j = true ↔ RdapParkedSpec j := by
  unfold is_domain_parked_rdap RdapParkedSpec
  rw [Bool.or_eq_true]
  apply or_congr
  · cases hs : (j.get "status").bind Json.asArr with
    | none => simp
    | some statuses => simp [List.any_eq_true, rdap_status_parked_iff]
  · cases he : (j.get "entities").bind Json.asArr with
    | none => simp
    | some entities => simp [List.any_eq_true, rdap_entity_parked_iff]

/-- Claim C3: with a reachable RDAP endpoint, the first (non-429) response
is classified exactly as: 404 is available; 200 with a parseable body is
parked precisely when the body satisfies the spec parking condition
(status[] hold keyword, or registrar entity with a parking-service name via
vCard fn / publicIds / handle-or-name), else registered; 200 without
parseable JSON is registered; any other status is a tier failure. -/
theorem claim_C3_rdap_classification (env : RdapEnv) (domain tld ep : String)
    (htld : extract_tld domain = .ok tld)
    (hep : get_rdap_endpoint tld = .ok ep) :
    (∀ b, env.first = .ok (404, b) → check_domain_rdap env domain = .ok "available") ∧
    (∀ j, env.first = .ok (200, some j) →
      check_domain_rdap env domain =
        .ok (if is_domain_parked_rdap j then "parked" else "registered")) ∧
    (∀ j, is_domain_parked_rdap j = true ↔ RdapParkedSpec j) ∧
    (env.first = .ok (200, none) → check_domain_rdap env domain = .ok "registered") ∧
    (∀ st b, env.first = .ok (st, b) → st ≠ 200 → st ≠ 404 → st ≠ 429 →
      check_domain_rdap env domain = .error "RDAP server returned status") := by
  refine ⟨fun b hb => ?_, fun j hj => ?_, fun j => is_domain_parked_rdap_iff j,
    fun h => ?_, fun st b hb h200 h404 h429 => ?_⟩ <;>
    simp [check_domain_rdap, htld, hep, apply_ite, *]

/-- Concrete evaluation of claim C3: a 200 body with registrar "Sedo Domain
Parking" is parked (and satisfies the spec parking condition), a 200 body
with `status: ["active"]` is registered, and a 500 is a tier failure. -/
theorem claim_C3_rdap_classification_witness :
    check_domain_rdap rdap_env_200_sedo "example.com" = .ok "parked" ∧
    RdapParkedSpec json_registrar_sedo ∧
    check_domain_rdap rdap_env_200_active "example.com" = .ok "registered" ∧
    check_domain_rdap rdap_env_500 "example.com"
      = .error "RDAP server returned status" := by
  have h1 := claim_C3_rdap_classification rdap_env_200_sedo "example.com" "com"
    "https://rdap.verisign.com/com/v1/domain/" (by rfl) (by rfl)
  have h2 := claim_C3_rdap_classification rdap_env_200_active "example.com" "com"
    "https://rdap.verisign.com/com/v1/domain/" (by rfl) (by rfl)
  have h3 := claim_C3_rdap_classification rdap_env_500 "example.com" "com"
    "https://rdap.verisign.com/com/v1/domain/" (by rfl) (by rfl)
  refine ⟨?_, ?_, ?_, ?_⟩
  · exact (h1.2.1 json_registrar_sedo rfl).trans (by rfl)
  · exact (h1.2.2.1 json_registrar_sedo).mp (by rfl)
  · exact (h2.2.1 json_status_active rfl).trans (by rfl)
  · exact h3.2.2.2.2 500 none rfl (by decide) (by decide) (by decide)

/-! ## Claim C4: WHOIS classification -/

/-- Claim C4: on any WHOIS response text, the tier classifies the lowercased
text by substring search with availability markers first, then registration
markers (downgraded to parked on an additional parking keyword), and
otherwise fails the tier with "unable to determine status". -/
theorem claim_C4_whois_classification (env : WhoisEnv) (domain raw : String)
    (h : env.response = .ok raw) :
    check_whois env domain =
      (let whois_data := rlower raw
       if hasAnyKeyword whois_data whois_available_markers then .ok "available"
       else if hasAnyKeyword whois_data whois_registered_markers then
         if hasAnyKeyword whois_data whois_parking_markers then .ok "parked"
         else .ok "registered"
       else .error "unable to determine status") := by
  simp [check_whois, h, hasAnyKeyword, whois_available_markers,
    whois_registered_markers, whois_parking_markers, Bool.or_assoc]

/-- Concrete evaluation of claim C4: a no-match text is available, a
registrar text is registered, a registrar text with a parking keyword is
parked, and an unrecognized text is a tier failure. -/
theorem claim_C4_whois_classification_witness :
    check_whois ⟨.ok "No match for domain"⟩ "example.com" = .ok "available" ∧
    check_whois ⟨.ok "Registrar: Example Inc."⟩ "example.com" = .ok "registered" ∧
    check_whois ⟨.ok "Registrar: Sedo GmbH"⟩ "example.com" = .ok "parked" ∧
    check_whois ⟨.ok "weird response"⟩ "example.com"
      = .error "unable to determine status" := by
  refine ⟨?_, ?_, ?_, ?_⟩ <;>
    exact (claim_C4_whois_classification _ "example.com" _ rfl).trans (by rfl)

/-! ## Claim C5: DNS + HTTP fallback -/

lemma http_parking_signature_chain (cl : String) :
    http_parking_signature cl
      = (rcontains cl "parked" || rcontains cl "domain for sale"
          || rcontains cl "this domain may be for sale"
          || (rcontains cl "godaddy" && rcontains cl "parked")
          || rcontains cl "sedo" || rcontains cl "parking"
          || rcontains cl "under construction" || rcontains cl "coming soon") := by
  simp [http_parking_signature, hasAnyKeyword, Bool.or_assoc]

/-- Claim C5: the DNS+HTTP tier is total and classifies as: DNS resolution
error or zero records is available, DNS timeout is timeout; with records,
the probe loop returns parked on the first status-success response whose
lowercased body carries a parking signature, registered on a success without
one (including an unreadable body), skips unsuccessful probes, and still
returns registered when no probe succeeds. -/
theorem claim_C5_dns_http_fallback (env : LegacyEnv) (domain : String) :
    (env.dns = .resolveErr → dns_http_check env domain = "available") ∧
    (env.dns = .ok 0 → dns_http_check env domain = "available") ∧
    (env.dns = .elapsed → dns_http_check env domain = "timeout") ∧
    (∀ n, env.dns = .ok n → n ≠ 0 →
      dns_http_check env domain = probe_protocols [env.http, env.https]) ∧
    (∀ rest content, probe_protocols (ProbeResult.resp true (some content) :: rest)
        = if http_parking_signature (rlower content) then "parked" else "registered") ∧
    (∀ rest, probe_protocols (ProbeResult.resp true none :: rest) = "registered") ∧
    (∀ rest, probe_protocols (ProbeResult.noResp :: rest) = probe_protocols rest) ∧
    (∀ rest b, probe_protocols (ProbeResult.resp false b :: rest)
        = probe_protocols rest) ∧
    probe_protocols [] = "registered" := by
  refine ⟨fun h => ?_, fun h => ?_, fun h => ?_, fun n h hn => ?_,
    fun rest content => ?_, fun rest => ?_, fun rest => ?_, fun rest b => ?_, rfl⟩
  · simp [dns_http_check, h]
  · simp [dns_http_check, h]
  · simp [dns_http_check, h]
  · simp [dns_http_check, h, hn]
  · simp [probe_protocols, http_parking_signature_chain, Bool.or_assoc]
  · simp [probe_protocols]
  · simp [probe_protocols]
  · simp [probe_protocols]

/-- Concrete evaluation of claim C5: a parked landing page is parked, zero
DNS records and resolution errors are available, a DNS timeout is timeout,
and DNS records with no reachable HTTP server still give registered. -/
theorem claim_C5_dns_http_fallback_witness :
    dns_http_check ⟨whois_fail, .ok 1,
        .resp true (some "Domain PARKED at provider"), .noResp⟩ "x.com" = "parked" ∧
    dns_http_check ⟨whois_fail, .ok 0, .noResp, .noResp⟩ "x.com" = "available" ∧
    dns_http_check ⟨whois_fail, .resolveErr, .noResp, .noResp⟩ "x.com" = "available" ∧
    dns_http_check ⟨whois_fail, .elapsed, .noResp, .noResp⟩ "x.com" = "timeout" ∧
    dns_http_check ⟨whois_fail, .ok 2, .noResp, .noResp⟩ "x.com" = "registered" := by
  refine ⟨?_, ?_, ?_, ?_, ?_⟩
  · exact ((claim_C5_dns_http_fallback _ "x.com").2.2.2.1 1 rfl (by decide)).trans (by rfl)
  · exact (claim_C5_dns_http_fallback _ "x.com").2.1 rfl
  · exact (claim_C5_dns_http_fallback _ "x.com").1 rfl
  · exact (claim_C5_dns_http_fallback _ "x.com").2.2.1 rfl
  · exact ((claim_C5_dns_http_fallback _ "x.com").2.2.2.1 2 rfl (by decide)).trans (by rfl)

/-! ## Claim C6: RDAP 429 retry -/

/-- Claim C6: on a first RDAP 429 the client emits exactly one GET, one
fixed 500 ms sleep, and exactly one retry GET of the same URL — never a
second retry; the retry response is classified 200 to registered and 404 to
available, and any other retry outcome (other status, or a failed send) is
a tier failure. -/
theorem claim_C6_rdap_429_retry (env : RdapEnv) (domain tld ep : String)
    (b : Option Json)
    (htld : extract_tld domain = .ok tld)
    (hep : get_rdap_endpoint tld = .ok ep)
    (hfirst : env.first = .ok (429, b)) :
    check_domain_rdap_events env domain
      = [.rdap_get (ep ++ domain), .rdap_sleep RETRY_DELAY_MS,
         .rdap_get (ep ++ domain)] ∧
    RETRY_DELAY_MS = 500 ∧
    (env.retry = .ok 200 → check_domain_rdap env domain = .ok "registered") ∧
    (env.retry = .ok 404 → check_domain_rdap env domain = .ok "available") ∧
    (∀ r, env.retry = .ok r → r ≠ 200 → r ≠ 404 →
      check_domain_rdap env domain = .error "RDAP server error after retry") ∧
    (∀ u, env.retry = .error u → check_domain_rdap env domain = .error "request error") := by
  refine ⟨?_, rfl, fun h => ?_, fun h => ?_, fun r h h200 h404 => ?_, fun u h => ?_⟩ <;>
    simp [check_domain_rdap_events, check_domain_rdap, htld, hep, hfirst, *]

/-- Concrete evaluation of claim C6: a 429 followed by a 200 retry issues
exactly two GETs of the same URL around one 500 ms sleep and yields
registered. -/
theorem claim_C6_rdap_429_retry_witness :
    check_domain_rdap_events rdap_env_429_200 "example.com"
      = [.rdap_get "https://rdap.verisign.com/com/v1/domain/example.com",
         .rdap_sleep 500,
         .rdap_get "https://rdap.verisign.com/com/v1/domain/example.com"] ∧
    check_domain_rdap rdap_env_429_200 "example.com" = .ok "registered" := by
  have h := claim_C6_rdap_429_retry rdap_env_429_200 "example.com" "com"
    "https://rdap.verisign.com/com/v1/domain/" none (by rfl) (by rfl) (by rfl)
  exact ⟨h.1.trans (by rfl), h.2.2.1 rfl⟩

/-! ## Claim C9: reduction to the registrable domain -/

lemma rsplit_ne_nil (sep : Char) (l : List Char) : rsplit sep l ≠ [] := by
  induction l with
  | nil => simp [rsplit]
  | cons c rest ih =>
    simp only [rsplit]
    split
    · simp
    · split
      · simp
      · simp

lemma not_mem_of_mem_rsplit (sep : Char) (l : List Char) (g : List Char)
    (hg : g ∈ rsplit sep l) : sep ∉ g := by
  induction l generalizing g with
  | nil =>
    simp only [rsplit, List.mem_singleton] at hg
    subst hg; simp
  | cons c rest ih =>
    simp only [rsplit] at hg
    by_cases hc : c = sep
    · rw [if_pos hc] at hg
      rcases List.mem_cons.mp hg with hg | hg
      · subst hg; simp
      · exact ih g hg
    · rw [if_neg hc] at hg
      cases hr : rsplit sep rest with
      | nil => exact absurd hr (rsplit_ne_nil sep rest)
      | cons g0 gs =>
        rw [hr] at hg
        rcases List.mem_cons.mp hg with hg | hg
        · subst hg
          intro hmem
          rcases List.mem_cons.mp hmem with hmem | hmem
          · exact hc hmem.symm
          · exact ih g0 (hr ▸ List.mem_cons_self g0 gs) hmem
        · exact ih g (hr ▸ List.mem_cons_of_mem g0 hg)

lemma rsplit_append (sep : Char) (a b : List Char) (ha : sep ∉ a) :
    rsplit sep (a ++ sep :: b) = a :: rsplit sep b := by
  induction a with
  | nil => simp [rsplit]
  | cons c a' ih =>
    have hc : ¬ c = sep := fun h => ha (h ▸ List.mem_cons_self c a')
    simp only [List.cons_append, rsplit, if_neg hc, List.append_eq]
    rw [ih (fun h => ha (List.mem_cons_of_mem c h))]

lemma rsplit_single (sep : Char) (b : List Char) (hb : sep ∉ b) :
    rsplit sep b = [b] := by
  induction b with
  | nil => rfl
  | cons c b' ih =>
    have hc : ¬ c = sep := fun h => hb (h ▸ List.mem_cons_self c b')
    simp only [rsplit, if_neg hc]
    rw [ih (fun h => hb (List.mem_cons_of_mem c h))]

lemma extract_registrable_domain_idem (input : String) :
    extract_registrable_domain (extract_registrable_domain input)
      = extract_registrable_domain input := by
  rcases h : (rsplit '.' input.toList).reverse with _ | ⟨tld, _ | ⟨domain, rest⟩⟩
  · have e1 : extract_registrable_domain input = input := by
      unfold extract_registrable_domain; rw [h]
    rw [e1]; exact e1
  · have e1 : extract_registrable_domain input = input := by
      unfold extract_registrable_domain; rw [h]
    rw [e1]; exact e1
  · have hmemtld : tld ∈ rsplit '.' input.toList := by
      have : tld ∈ (rsplit '.' input.toList).reverse := by
        rw [h]; exact List.mem_cons_self _ _
      exact List.mem_reverse.mp this
    have hmemdom : domain ∈ rsplit '.' input.toList := by
      have : domain ∈ (rsplit '.' input.toList).reverse := by
        rw [h]; exact List.mem_cons_of_mem _ (List.mem_cons_self _ _)
      exact List.mem_reverse.mp this
    have htld : ('.' : Char) ∉ tld := not_mem_of_mem_rsplit _ _ _ hmemtld
    have hdom : ('.' : Char) ∉ domain := not_mem_of_mem_rsplit _ _ _ hmemdom
    have e1 : extract_registrable_domain input = String.mk (domain ++ '.' :: tld) := by
      unfold extract_registrable_domain; rw [h]
    rw [e1]
    unfold extract_registrable_domain
    rw [show (String.mk (domain ++ '.' :: tld)).toList = domain ++ '.' :: tld from rfl,
      rsplit_append _ _ _ hdom, rsplit_single _ _ htld]
    simp

/-- Claim C9: the resolver reduces every candidate to its registrable domain
(the last two dot-separated labels, e.g. "con.cordiumm.com" becomes
"cordiumm.com"); reduction is idempotent, so resolving a candidate gives the
same outcome — and runs the same tiers — as resolving its registrable
domain. -/
theorem claim_C9_registrable_domain (env : Env) (domain : String) :
    extract_registrable_domain "con.cordiumm.com" = "cordiumm.com" ∧
    extract_registrable_domain (extract_registrable_domain domain)
      = extract_registrable_domain domain ∧
    check_domain_status env domain
      = check_domain_status env (extract_registrable_domain domain) ∧
    check_domain_status_tiers env domain
      = check_domain_status_tiers env (extract_registrable_domain domain) := by
  refine ⟨by rfl, extract_registrable_domain_idem domain, ?_, ?_⟩
  · unfold check_domain_status
    rw [extract_registrable_domain_idem]
  · unfold check_domain_status_tiers
    rw [extract_registrable_domain_idem]

/-! ## Claims C7 and C8: bounded concurrency and one result per domain -/

lemma sched_invariant (envOf : String → Env) (domains : List String) (C : Nat)
    (s : SchedState) (h : SchedReach envOf (SchedInit domains C) s) :
    s.permits + s.running.length = C ∧
    (s.pending ++ (s.running ++ s.finished.map Prod.fst)).Perm domains ∧
    ∀ p ∈ s.finished, p.2 = check_domain_status (envOf p.1) p.1 := by
  unfold SchedReach at h
  induction h with
  | refl => simp [SchedInit]
  | @tail b c hsteps hstep ih =>
    obtain ⟨ih1, ih2, ih3⟩ := ih
    cases hstep with
    | start d p₁ p₂ s0 hp hperm =>
      refine ⟨?_, ?_, ?_⟩
      · simp only [List.length_cons]
        omega
      · dsimp only
        rw [hp] at ih2
        have h1 : ((p₁ ++ p₂) ++ (d :: (b.running ++ b.finished.map Prod.fst))).Perm
            (d :: ((p₁ ++ p₂) ++ (b.running ++ b.finished.map Prod.fst))) :=
          List.perm_middle
        have h2 : ((p₁ ++ d :: p₂) ++ (b.running ++ b.finished.map Prod.fst)).Perm
            (d :: ((p₁ ++ p₂) ++ (b.running ++ b.finished.map Prod.fst))) :=
          List.perm_middle.append_right _
        exact (h1.trans h2.symm).trans ih2
      · dsimp only
        exact ih3
    | finish d r₁ r₂ s0 hr =>
      refine ⟨?_, ?_, ?_⟩
      · rw [hr] at ih1
        simp only [List.length_append, List.length_cons] at ih1 ⊢
        omega
      · dsimp only
        rw [hr] at ih2
        simp only [List.map_append, List.map_cons, List.map_nil]
        have h1 : ((r₁ ++ r₂) ++ (b.finished.map Prod.fst ++ [d])).Perm
            (d :: ((r₁ ++ r₂) ++ b.finished.map Prod.fst)) :=
          (List.Perm.append_left (r₁ ++ r₂)
            (List.perm_append_singleton d (b.finished.map Prod.fst))).trans
            List.perm_middle
        have h2 : ((r₁ ++ d :: r₂) ++ b.finished.map Prod.fst).Perm
            (d :: ((r₁ ++ r₂) ++ b.finished.map Prod.fst)) :=
          List.perm_middle.append_right _
        exact (List.Perm.append_left b.pending (h1.trans h2.symm)).trans ih2
      · dsimp only
        intro p hp
        rcases List.mem_append.mp hp with hp | hp
        · exact ih3 p hp
        · rcases List.mem_singleton.mp hp with rfl
          rfl

/-- Claim C7: in the semaphore-bounded scheduler of
`check_domains_concurrent`, a permit is consumed before a resolution starts
and restored on completion, so in every reachable state the number of
in-flight resolutions never exceeds the concurrency limit; both call sites
fix that limit at 15. -/
theorem claim_C7_bounded_concurrency (envOf : String → Env)
    (domains : List String) (C : Nat) (s : SchedState)
    (h : SchedReach envOf (SchedInit domains C) s) :
    s.running.length ≤ C ∧
    main_check_concurrency = 15 ∧ streaming_check_concurrency = 15 := by
  obtain ⟨h1, -, -⟩ := sched_invariant envOf domains C s h
  exact ⟨by omega, rfl, rfl⟩

/-- Concrete evaluation of claim C7: after starting the single task of a
one-domain batch under limit 1, exactly one resolution is in flight. -/
theorem claim_C7_bounded_concurrency_witness :
    (⟨[], ["a.com"], [], 0⟩ : SchedState).running.length ≤ 1 ∧
    main_check_concurrency = 15 ∧ streaming_check_concurrency = 15 :=
  claim_C7_bounded_concurrency (fun _ => env_rdap404) ["a.com"] 1 _
    (Relation.ReflTransGen.single
      (SchedStep.start "a.com" [] [] (SchedInit ["a.com"] 1) rfl (by decide)))

/-- Claim C8: when the scheduler has drained its batch (nothing pending,
nothing running), the collected results carry exactly one (domain, outcome)
pair per input domain — the multiset of result keys is a permutation of the
input — and each pair holds the `check_domain_status` outcome of its domain. -/
theorem claim_C8_one_result_per_domain (envOf : String → Env)
    (domains : List String) (C : Nat) (s : SchedState)
    (h : SchedReach envOf (SchedInit domains C) s)
    (hpend : s.pending = []) (hrun : s.running = []) :
    (s.finished.map Prod.fst).Perm domains ∧
    ∀ p ∈ s.finished, p.2 = check_domain_status (envOf p.1) p.1 := by
  obtain ⟨-, h2, h3⟩ := sched_invariant envOf domains C s h
  rw [hpend, hrun] at h2
  exact ⟨by simpa using h2, h3⟩

/-- Concrete evaluation of claim C8: running the one-domain batch to
completion yields exactly the pair for "a.com" with its resolver outcome. -/
theorem claim_C8_one_result_per_domain_witness :
    ((⟨[], [], [("a.com", check_domain_status env_rdap404 "a.com")], 1⟩
        : SchedState).finished.map Prod.fst).Perm ["a.com"] ∧
    ∀ p ∈ (⟨[], [], [("a.com", check_domain_status env_rdap404 "a.com")], 1⟩
        : SchedState).finished,
      p.2 = check_domain_status ((fun _ => env_rdap404) p.1) p.1 :=
  claim_C8_one_result_per_domain (fun _ => env_rdap404) ["a.com"] 1 _
    (Relation.ReflTransGen.tail
      (Relation.ReflTransGen.single
        (SchedStep.start "a.com" [] [] (SchedInit ["a.com"] 1) rfl (by decide)))
      (SchedStep.finish "a.com" [] [] ⟨[], ["a.com"], [], 0⟩ rfl))
    rfl rfl

/-! ## Claim C10: a zero-yield full batch halts the streaming loop -/

lemma combo_loop_fill (statuses : String → String) (cS oR oA : Bool)
    (bs oc : Nat) (rest : List String) :
    ∀ (cs batch : List String) (total : Nat),
      cs ≠ [] →
      batch.length + cs.length = bs →
      total < oc →
      generate_combo_streaming_loop statuses cS oR oA bs oc (cs ++ rest) batch total =
        (let full := batch ++ cs
         let processed := process_batch statuses cS oR oA full total oc
         if processed.1 = 0 then ([full], processed.2)
         else
           let next := generate_combo_streaming_loop statuses cS oR oA bs oc
             rest [] processed.2
           (full :: next.1, next.2)) := by
  intro cs
  induction cs with
  | nil => intro batch total hne _ _; exact absurd rfl hne
  | cons c cs' ih =>
    intro batch total _hne hlen htot
    cases cs' with
    | nil =>
      simp only [List.cons_append, List.nil_append, generate_combo_streaming_loop]
      rw [if_pos htot]
      have hfull : bs ≤ (batch ++ [c]).length := by
        simp only [List.length_append, List.length_cons, List.length_nil] at hlen ⊢
        omega
      rw [if_pos hfull]
      rfl
    | cons c2 cs'' =>
      rw [List.cons_append, generate_combo_streaming_loop]
      rw [if_pos htot]
      have hlt : ¬ bs ≤ (batch ++ [c]).length := by
        simp only [List.length_append, List.length_cons, List.length_nil] at hlen ⊢
        omega
      rw [if_neg hlt]
      have hrec := ih (batch ++ [c]) total (by simp)
        (by simp only [List.length_append, List.length_cons, List.length_nil] at hlen ⊢; omega)
        htot
      rw [hrec]
      simp [List.append_assoc]

/-- Claim C10: in the streaming combo loop, whenever a full batch is
processed and contributes zero outputs after the keep-only filters — even
with the requested output count still unreached — the loop terminates
immediately: the batch trace is exactly that one batch, the count is
unchanged, and the remaining candidate stream (arbitrary `rest`) is never
consumed. -/
theorem claim_C10_zero_yield_batch_halts (statuses : String → String)
    (cS oR oA : Bool) (bs oc : Nat) (cs rest : List String) (total : Nat)
    (hbs : cs.length = bs) (hne : cs ≠ []) (htot : total < oc)
    (hzero : (process_batch statuses cS oR oA cs total oc).1 = 0)
    (_hnot_reached : (process_batch statuses cS oR oA cs total oc).2 < oc) :
    generate_combo_streaming_loop statuses cS oR oA bs oc (cs ++ rest) [] total
      = ([cs], (process_batch statuses cS oR oA cs total oc).2) := by
  have h := combo_loop_fill statuses cS oR oA bs oc rest cs [] total hne
    (by simpa using hbs) htot
  rw [h]
  simp [hzero]

/-- Concrete evaluation of claim C10: with only-registered filtering and
every domain reported available, the first full batch of 2 yields zero
outputs, and the loop halts without touching the remaining candidate
although only 0 of 5 requested outputs were produced. -/
theorem claim_C10_zero_yield_batch_halts_witness :
    generate_combo_streaming_loop (fun _ => "available") true true false 2 5
        (["a.com", "b.com"] ++ ["c.com"]) [] 0
      = ([["a.com", "b.com"]], 0) :=
  (claim_C10_zero_yield_batch_halts (fun _ => "available") true true false 2 5
    ["a.com", "b.com"] ["c.com"] 0 rfl (by decide) (by decide) (by rfl)
    (by decide)).trans (by rfl)
